import Mathlib

/-!
Shallow embedding of the `celery-tools` coordination primitives
(`celery_tools/concurrency.py`) and the single-instance task wrapper
(`celery_tools/base_tasks.py`).

The Django cache backend is modelled as a partial map from string keys to
integers.  Cache operations that Django raises on (`incr`/`decr` on a
missing key, `ValueError` from the semaphore guard and from the bounded
semaphore constructor) are modelled with `Except CacheError`.  Because the
cache is external state, every operation returns the resulting store even
when it signals an error, mirroring the fact that a Python exception does
not roll back cache writes that already happened.  TTL expiry (the
`timeout` arguments) is real-time behaviour and is not modelled; the
timeout value is carried but has no semantic effect here.
-/

namespace CeleryTools

abbrev Key := String

/-- The Django cache contents: a partial map from keys to integer values. -/
abbrev Store := Key → Option Int

/-- `cache.get(key, default)` for integer-valued entries. -/
def Store.get (s : Store) (k : Key) (default : Int) : Int :=
  (s k).getD default

/-- `cache.set(key, value, None)`. -/
def Store.set (s : Store) (k : Key) (v : Int) : Store :=
  fun k' => if k' = k then some v else s k'

/-- `cache.add(key, value, timeout)`: write only if the key is absent,
returning whether the write happened.  The timeout argument has no
semantic effect in this timeless model. -/
def Store.add (s : Store) (k : Key) (v : Int) (_timeout : Option Int) : Store × Bool :=
  match s k with
  | some _ => (s, false)
  | none => (s.set k v, true)

/-- `cache.delete(key)`. -/
def Store.delete (s : Store) (k : Key) : Store :=
  fun k' => if k' = k then none else s k'

/-- The exceptions the embedded code can raise. -/
inductive CacheError
  /-- Django `incr`/`decr` on a nonexistent key. -/
  | keyMissing
  /-- `ValueError('Semaphore cannot be acquired')`. -/
  | cannotAcquire
  /-- `ValueError("Initial value cannot be greater than max value")`. -/
  | initTooLarge
deriving DecidableEq

/-- `cache.incr(key, delta)`: raises on a missing key, otherwise stores and
returns the incremented value. -/
def Store.incr (s : Store) (k : Key) (delta : Int) : Store × Except CacheError Int :=
  match s k with
  | none => (s, Except.error CacheError.keyMissing)
  | some v => (s.set k (v + delta), Except.ok (v + delta))

/-- `cache.decr(key, delta)`, implemented (as in Django) as `incr` of the
negated delta. -/
def Store.decr (s : Store) (k : Key) (delta : Int) : Store × Except CacheError Int :=
  s.incr k (-delta)

/-- Python truthiness of `cache.get(key, False)`: absent gives `False`
(falsy) and an integer value is truthy iff nonzero. -/
def truthy : Option Int → Bool
  | none => false
  | some v => v != 0

/-- `CacheLock` from `concurrency.py`: only the key and the (semantically
inert) timeout are held by the object; the store is the source of truth. -/
structure CacheLock where
  cacheKey : Key
  timeout : Option Int := none

/-- `CacheLock.locked`: `cache.get(self._cache_key, 0) == 1`. -/
def CacheLock.locked (l : CacheLock) (s : Store) : Bool :=
  (s.get l.cacheKey 0) == 1

/-- `CacheLock.acquire`: if not locked, `cache.add(key, 1, timeout)` (result
ignored) and return `True`; otherwise return `False`. -/
def CacheLock.acquire (l : CacheLock) (s : Store) : Store × Bool :=
  if !(l.locked s) then ((s.add l.cacheKey 1 l.timeout).1, true)
  else (s, false)

/-- `CacheLock.release`: `cache.delete(self._cache_key)`. -/
def CacheLock.release (l : CacheLock) (s : Store) : Store :=
  s.delete l.cacheKey

/-- `CacheLock.__del__` calls `release`. -/
def CacheLock.destruct (l : CacheLock) (s : Store) : Store :=
  l.release s

/-- `CacheSemaphore` from `concurrency.py`: holds only the cache key. -/
structure CacheSemaphore where
  cacheKey : Key

/-- `CacheSemaphore.__init__`: `if not cache.get(key, False): cache.set(key, value, None)`.
Returns the written store together with the constructed object. -/
def CacheSemaphore.create (cacheKey : Key) (value : Int) (s : Store) :
    Store × CacheSemaphore :=
  if !(truthy (s cacheKey)) then (s.set cacheKey value, ⟨cacheKey⟩)
  else (s, ⟨cacheKey⟩)

/-- `CacheSemaphore.value`: `cache.get(self._cache_key, 0)`. -/
def CacheSemaphore.value (sem : CacheSemaphore) (s : Store) : Int :=
  s.get sem.cacheKey 0

/-- `CacheSemaphore.acquire(value)`: raise `ValueError` if
`current_value < 1 or current_value < value`, else `cache.decr` and return
`True`. -/
def CacheSemaphore.acquire (sem : CacheSemaphore) (value : Int) (s : Store) :
    Store × Except CacheError Bool :=
  let current := sem.value s
  if current < 1 ∨ current < value then (s, Except.error CacheError.cannotAcquire)
  else
    match s.decr sem.cacheKey value with
    | (s', Except.error e) => (s', Except.error e)
    | (s', Except.ok _) => (s', Except.ok true)

/-- `CacheSemaphore.acquire_all`: read the value, `acquire` that much, and
return the value read (exceptions from `acquire` propagate). -/
def CacheSemaphore.acquire_all (sem : CacheSemaphore) (s : Store) :
    Store × Except CacheError Int :=
  let value := sem.value s
  match sem.acquire value s with
  | (s', Except.error e) => (s', Except.error e)
  | (s', Except.ok _) => (s', Except.ok value)

/-- `CacheSemaphore.locked`: `value() < 1`. -/
def CacheSemaphore.isLocked (sem : CacheSemaphore) (s : Store) : Bool :=
  decide (sem.value s < 1)

/-- `CacheSemaphore.release(value)`: `cache.incr(key, value)` (raises if the
key is missing). -/
def CacheSemaphore.release (sem : CacheSemaphore) (value : Int) (s : Store) :
    Store × Except CacheError Unit :=
  let (s', r) := s.incr sem.cacheKey value
  (s', r.map fun _ => ())

/-- `CacheSemaphore.delete`: `cache.delete(self._cache_key)`. -/
def CacheSemaphore.delete (sem : CacheSemaphore) (s : Store) : Store :=
  s.delete sem.cacheKey

/-- `CacheSemaphore.__del__` calls `self.delete()`. -/
def CacheSemaphore.destruct (sem : CacheSemaphore) (s : Store) : Store :=
  sem.delete s

/-- `CacheBoundedSemaphore`: a `CacheSemaphore` plus the `_max_value` field. -/
structure CacheBoundedSemaphore extends CacheSemaphore where
  maxValue : Int

/-- `CacheBoundedSemaphore.__init__`: run the inherited initializer first
(so its store write happens even if validation then fails), default
`max_value` to `value`, and raise `ValueError` when `value > max_value`. -/
def CacheBoundedSemaphore.create (cacheKey : Key) (value : Int)
    (maxValue : Option Int) (s : Store) :
    Store × Except CacheError CacheBoundedSemaphore :=
  let (s1, sem) := CacheSemaphore.create cacheKey value s
  let max := maxValue.getD value
  if value > max then (s1, Except.error CacheError.initTooLarge)
  else (s1, Except.ok ⟨sem, max⟩)

/-- `CacheBoundedSemaphore.full`: `cache.get(key, self._max_value) >= self._max_value`
— note the default for an absent key is `_max_value`, not 0. -/
def CacheBoundedSemaphore.full (b : CacheBoundedSemaphore) (s : Store) : Bool :=
  decide (b.maxValue ≤ s.get b.cacheKey b.maxValue)

/-- `CacheBoundedSemaphore.release(value)`: clamp the released amount to
`max_value - current_value`, then `cache.incr`. -/
def CacheBoundedSemaphore.release (b : CacheBoundedSemaphore) (value : Int)
    (s : Store) : Store × Except CacheError Unit :=
  let current := b.toCacheSemaphore.value s
  let value := if value > b.maxValue - current then b.maxValue - current else value
  let (s', r) := s.incr b.cacheKey value
  (s', r.map fun _ => ())

/-- `CacheBoundedSemaphore.release_all`: `self.release(self._max_value - self.value())`. -/
def CacheBoundedSemaphore.release_all (b : CacheBoundedSemaphore) (s : Store) :
    Store × Except CacheError Unit :=
  b.release (b.maxValue - b.toCacheSemaphore.value s) s

/-- `CacheBoundedSemaphore.__del__` calls the inherited `__del__`, which
calls `self.delete()`. -/
def CacheBoundedSemaphore.destruct (b : CacheBoundedSemaphore) (s : Store) : Store :=
  b.toCacheSemaphore.destruct s

/-! ### `base_tasks.py`: the single-instance task wrapper -/

/-- Observable events of one task-instance lifecycle, used to count how
often the lock-release call is invoked. -/
inductive TaskEvent
  | evAcquire (ok : Bool)
  | evWork
  | evRelease
deriving DecidableEq

/-- What `LoggedSingleTask.__call__` does from the caller's point of view:
return the wrapped work's result, return the bare `False` used to signal a
skipped run, or propagate an exception raised by the work. -/
inductive CallOutcome (α : Type)
  | value (v : α)
  | skippedFalse
  | raised
deriving DecidableEq

/-- Python `str.lower()`, character by character. -/
def strLower (t : String) : String :=
  String.mk (t.data.map Char.toLower)

/-- `lock_id = 'lock_{}'.format(self.TAG.lower())` from
`LoggedSingleTask.__init__`. -/
def lockIdFor (tag : String) : String :=
  "lock_" ++ strLower tag

/-- A `LoggedSingleTask` is identified by its `TAG`. -/
structure LoggedSingleTask where
  tag : String

/-- The lock constructed in `LoggedSingleTask.__init__`. -/
def LoggedSingleTask.lock (t : LoggedSingleTask) : CacheLock :=
  ⟨lockIdFor t.tag, none⟩

/-- `LoggedSingleTask.__call__`: acquire the lock; on success run the work
(`some r` = normal return, `none` = the work raises, propagating) and
release before returning; on acquisition failure return `False` without
running the work.  The event list records the underlying calls made. -/
def LoggedSingleTask.call {α : Type} (t : LoggedSingleTask)
    (work : Store → Store × Option α) (s : Store) :
    Store × CallOutcome α × List TaskEvent :=
  let (s1, acq) := t.lock.acquire s
  if acq then
    match work s1 with
    | (s2, some r) =>
        (t.lock.release s2, CallOutcome.value r,
          [TaskEvent.evAcquire true, TaskEvent.evWork, TaskEvent.evRelease])
    | (s2, none) =>
        (s2, CallOutcome.raised, [TaskEvent.evAcquire true, TaskEvent.evWork])
  else (s1, CallOutcome.skippedFalse, [TaskEvent.evAcquire false])

/-- `LoggedSingleTask.on_success`: releases the lock unconditionally. -/
def LoggedSingleTask.on_success (t : LoggedSingleTask) (s : Store) :
    Store × List TaskEvent :=
  (t.lock.release s, [TaskEvent.evRelease])

/-- `LoggedSingleTask.on_failure`: releases the lock unconditionally. -/
def LoggedSingleTask.on_failure (t : LoggedSingleTask) (s : Store) :
    Store × List TaskEvent :=
  (t.lock.release s, [TaskEvent.evRelease])

/-- Modelled from the spec: the worker driving a task instance is the
external scheduler (celery), absent from `src/`.  Per the lifecycle
contract (spec 4.4 and the celery `Task` interface) the success handler
runs after `__call__` returns normally — including the bare-`False`
skipped return, which is a normal return — and the failure handler runs
after `__call__` raises. -/
def LoggedSingleTask.lifecycle {α : Type} (t : LoggedSingleTask)
    (work : Store → Store × Option α) (s : Store) :
    Store × CallOutcome α × List TaskEvent :=
  let (s1, out, ev1) := t.call work s
  match out with
  | CallOutcome.raised =>
      let (s2, ev2) := t.on_failure s1
      (s2, out, ev1 ++ ev2)
  | _ =>
      let (s2, ev2) := t.on_success s1
      (s2, out, ev1 ++ ev2)

/-- The empty cache. -/
def emptyStore : Store := fun _ => none

/-- A cache holding a single integer entry. -/
def single (k : Key) (v : Int) : Store :=
  emptyStore.set k v

/-- A work function that returns 42 without touching the cache; used as a
concrete observable payload. -/
def answerWork : Store → Store × Option Int :=
  fun s => (s, some 42)

/-- The counter key holds a value within the bounded semaphore's range. -/
def counterInRange (b : CacheBoundedSemaphore) (s : Store) : Prop :=
  ∃ w, s b.cacheKey = some w ∧ 0 ≤ w ∧ w ≤ b.maxValue

/-- A concrete semaphore handle, for concrete instantiations. -/
def semK : CacheSemaphore := ⟨"k"⟩

/-- A store whose counter key holds 0. -/
def zeroStore : Store := single "k" 0

/-- A concrete bounded semaphore with capacity 5. -/
def b5 : CacheBoundedSemaphore := ⟨⟨"k"⟩, 5⟩

/-- A concrete single-instance task with tag `Sync` (lock key `lock_sync`). -/
def syncTask : LoggedSingleTask := ⟨"Sync"⟩

/-- A store in which `syncTask`'s lock is currently held (by some other
instance). -/
def heldStore : Store := single (lockIdFor "Sync") 1

/-! ### Theorems -/

/-- Case analysis of `CacheSemaphore.acquire`: either the guard trips and
the call raises `ValueError` with the store untouched, or the guard passes
and the counter is decremented by exactly the requested amount. -/
theorem acquire_cases (sem : CacheSemaphore) (u : Int) (s : Store) :
    ((sem.value s < 1 ∨ sem.value s < u) ∧
      sem.acquire u s = (s, Except.error CacheError.cannotAcquire)) ∨
    (¬(sem.value s < 1 ∨ sem.value s < u) ∧
      sem.acquire u s = (s.set sem.cacheKey (sem.value s - u), Except.ok true)) := by
  by_cases h : sem.value s < 1 ∨ sem.value s < u
  · exact Or.inl ⟨h, by simp [CacheSemaphore.acquire, h]⟩
  · refine Or.inr ⟨h, ?_⟩
    have h1 : ¬(sem.value s < 1) := fun hl => h (Or.inl hl)
    cases hk : s sem.cacheKey with
    | none =>
        exact absurd (by simp [CacheSemaphore.value, Store.get, hk]) h1
    | some w =>
        have hw : sem.value s = w := by simp [CacheSemaphore.value, Store.get, hk]
        simp [CacheSemaphore.acquire, h, Store.decr, Store.incr, hk, hw, sub_eq_add_neg]
        push_neg at h
        omega

/-- C1: for every `CacheLock` whose key is absent from the store, a first
`acquire()` returns true and writes the held marker (value 1); a second
`acquire()` before any release returns false and leaves the store exactly
as it was; after `release()` the key is absent again and a subsequent
`acquire()` returns true. -/
theorem cacheLock_free_acquire_cycle (l : CacheLock) (s : Store)
    (hfree : s l.cacheKey = none) :
    (l.acquire s).2 = true ∧
    ((l.acquire s).1) l.cacheKey = some 1 ∧
    l.acquire (l.acquire s).1 = ((l.acquire s).1, false) ∧
    (l.release (l.acquire s).1) l.cacheKey = none ∧
    (l.acquire (l.release (l.acquire s).1)).2 = true := by
  have hacq : l.acquire s = (s.set l.cacheKey 1, true) := by
    simp [CacheLock.acquire, CacheLock.locked, Store.get, hfree, Store.add]
  refine ⟨by rw [hacq], ?_, ?_, ?_, ?_⟩
  · rw [hacq]; simp [Store.set]
  · rw [hacq]
    simp [CacheLock.acquire, CacheLock.locked, Store.get, Store.set]
  · rw [hacq]; simp [CacheLock.release, Store.delete]
  · rw [hacq]
    simp [CacheLock.acquire, CacheLock.locked, CacheLock.release, Store.get,
      Store.delete, Store.add, Store.set]

/-- Witness for C1 at the lock `k` over the empty store. -/
theorem cacheLock_free_acquire_cycle_witness :
    (emptyStore "k" = none) ∧
    ((CacheLock.acquire ⟨"k", none⟩ emptyStore).2 = true ∧
     ((CacheLock.acquire ⟨"k", none⟩ emptyStore).1) "k" = some 1 ∧
     CacheLock.acquire ⟨"k", none⟩ (CacheLock.acquire ⟨"k", none⟩ emptyStore).1 =
       ((CacheLock.acquire ⟨"k", none⟩ emptyStore).1, false) ∧
     (CacheLock.release ⟨"k", none⟩ (CacheLock.acquire ⟨"k", none⟩ emptyStore).1) "k" = none ∧
     (CacheLock.acquire ⟨"k", none⟩
       (CacheLock.release ⟨"k", none⟩ (CacheLock.acquire ⟨"k", none⟩ emptyStore).1)).2 = true) :=
  ⟨rfl, cacheLock_free_acquire_cycle ⟨"k", none⟩ emptyStore rfl⟩

/-- C2: `CacheSemaphore.acquire(units)` raises `ValueError` exactly when the
current value is below 1 or below the requested units, and then leaves the
store untouched; otherwise it decrements the counter by exactly `units`
(leaving every other key unchanged) and returns true. -/
theorem cacheSemaphore_acquire_spec (sem : CacheSemaphore) (u : Int) (s : Store) :
    match sem.acquire u s with
    | (s', Except.error e) =>
        e = CacheError.cannotAcquire ∧ (sem.value s < 1 ∨ sem.value s < u) ∧ s' = s
    | (s', Except.ok b) =>
        b = true ∧ ¬(sem.value s < 1 ∨ sem.value s < u) ∧
        s' = s.set sem.cacheKey (sem.value s - u) := by
  rcases acquire_cases sem u s with ⟨h, heq⟩ | ⟨h, heq⟩ <;> rw [heq] <;>
    exact ⟨rfl, h, rfl⟩

/-- C3: starting from a counter with `0 ≤ v ≤ max`, acquiring or releasing
`u ≥ 1` units, or releasing all, keeps the counter within `[0, max]`; the
bounded release stores exactly `min max (v + u)`, clamping the released
amount to the headroom. -/
theorem boundedSemaphore_invariant (b : CacheBoundedSemaphore) (u v : Int) (s : Store)
    (hk : s b.cacheKey = some v) (h0 : 0 ≤ v) (hm : v ≤ b.maxValue) (hu : 1 ≤ u) :
    counterInRange b (b.toCacheSemaphore.acquire u s).1 ∧
    counterInRange b (b.release u s).1 ∧
    ((b.release u s).1) b.cacheKey = some (min b.maxValue (v + u)) ∧
    counterInRange b (b.release_all s).1 := by
  have hv : b.toCacheSemaphore.value s = v := by
    simp [CacheSemaphore.value, Store.get, hk]
  have hrel : ∀ x : Int, b.release x s =
      (s.set b.cacheKey (v + (if x > b.maxValue - v then b.maxValue - v else x)),
        Except.ok ()) := by
    intro x
    simp [CacheBoundedSemaphore.release, hv, Store.incr, hk, Except.map]
  refine ⟨?_, ?_, ?_, ?_⟩
  · rcases acquire_cases b.toCacheSemaphore u s with ⟨h, heq⟩ | ⟨h, heq⟩
    · rw [heq]
      exact ⟨v, hk, h0, hm⟩
    · rw [heq]
      push_neg at h
      rw [hv] at h
      exact ⟨v - u, by simp [Store.set, hv], by omega, by omega⟩
  · rw [hrel u]
    refine ⟨v + (if u > b.maxValue - v then b.maxValue - v else u),
      by simp [Store.set], ?_, ?_⟩ <;> split <;> omega
  · rw [hrel u]
    show (Store.set s b.cacheKey _) b.cacheKey = _
    by_cases hc : u > b.maxValue - v <;> simp [Store.set, hc] <;> omega
  · unfold CacheBoundedSemaphore.release_all
    rw [hv, hrel (b.maxValue - v)]
    refine ⟨v + (b.maxValue - v), ?_, by omega, by omega⟩
    simp [Store.set]

/-- Witness for C3: the spec's own example — capacity 5, counter at 0,
`release(10)` leaves the counter exactly 5. -/
theorem boundedSemaphore_invariant_witness :
    ((single "k" 0) "k" = some 0 ∧ (0 : Int) ≤ 0 ∧ (0 : Int) ≤ 5 ∧ (1 : Int) ≤ 10) ∧
    ((b5.release 10 (single "k" 0)).1) "k" = some 5 := by
  refine ⟨by refine ⟨by decide, by decide, by decide, by decide⟩, ?_⟩
  have h := boundedSemaphore_invariant b5 10 0 (single "k" 0)
    (by decide) (by decide) (by decide) (by decide)
  have h2 := h.2.2.1
  exact h2.trans (by decide)

/-- C4, evaluated at the failing input: with `syncTask`'s lock already held
(`lock_sync ↦ 1`), invoking the wrapper does return the bare-`False`
skipped outcome without running the work — but because that is a normal
return, the success handler then runs and unconditionally releases the
lock, so the lifecycle ends with the foreign lock deleted rather than
held. -/
theorem singleTask_skip_releases_foreign_lock :
    (syncTask.lifecycle answerWork heldStore).2.1 = CallOutcome.skippedFalse ∧
    ((syncTask.lifecycle answerWork heldStore).2.2).count TaskEvent.evWork = 0 ∧
    heldStore (syncTask.lock).cacheKey = some 1 ∧
    ((syncTask.lifecycle answerWork heldStore).1) (syncTask.lock).cacheKey = none := by
  refine ⟨by decide, by decide, by decide, by decide⟩

/-- Counterexample to C5: on a semaphore whose counter is 0, `acquire_all`
raises `ValueError` (it calls `acquire(0)`, whose `current < 1` guard
trips); it does not return 0. -/
theorem acquireAll_at_zero_raises :
    zeroStore "k" = some 0 ∧
    (semK.acquire_all zeroStore).2 = Except.error CacheError.cannotAcquire ∧
    (semK.acquire_all zeroStore).2 ≠ Except.ok 0 := by
  refine ⟨by decide, rfl, fun hcontra => ?_⟩
  rw [show (semK.acquire_all zeroStore).2 = Except.error CacheError.cannotAcquire from rfl]
    at hcontra
  exact Except.noConfusion hcontra

/-- C5 as amended: `acquire_all` reads the current value `v`; when `v < 1`
(in particular when the counter is 0 or the key is absent) it raises
`ValueError` and leaves the store untouched, and when `v ≥ 1` it acquires
exactly `v` units, leaving the counter at 0, and returns `v`. -/
theorem acquireAll_spec (sem : CacheSemaphore) (s : Store) :
    match sem.acquire_all s with
    | (s', Except.error e) =>
        e = CacheError.cannotAcquire ∧ sem.value s < 1 ∧ s' = s
    | (s', Except.ok n) =>
        n = sem.value s ∧ 1 ≤ sem.value s ∧ s' = s.set sem.cacheKey 0 := by
  rcases acquire_cases sem (sem.value s) s with ⟨h, heq⟩ | ⟨h, heq⟩
  · have h1 : sem.value s < 1 := by omega
    simp [CacheSemaphore.acquire_all, heq, h1]
  · push_neg at h
    have hz : sem.value s - sem.value s = 0 := by omega
    simp [CacheSemaphore.acquire_all, heq, hz, h.1]

/-- Counterexample to C6: constructing a semaphore over a key whose live
counter is 0 does not leave it unchanged — the falsy `cache.get(key, False)`
test treats a stored 0 like an absent key, so the initializer overwrites it
with the configured starting value. -/
theorem create_overwrites_zero_counter :
    zeroStore "k" = some 0 ∧
    ((CacheSemaphore.create "k" 5 zeroStore).1) "k" = some 5 ∧
    some (5 : Int) ≠ some (0 : Int) := by
  refine ⟨by decide, by decide, by decide⟩

/-- C6 as amended: constructing a `CacheSemaphore` over a key already
present in the store leaves the counter unchanged whenever its value is
nonzero (truthy); when the stored value is 0 the initializer overwrites it
with the configured starting value.  The bounded constructor writes the
store exactly as the inherited one does. -/
theorem create_preserves_nonzero_counter (k : Key) (v w : Int) (mv : Option Int)
    (s : Store) (hk : s k = some w) :
    (w ≠ 0 → (CacheSemaphore.create k v s).1 = s) ∧
    (w = 0 → (CacheSemaphore.create k v s).1 = s.set k v) ∧
    (CacheBoundedSemaphore.create k v mv s).1 = (CacheSemaphore.create k v s).1 := by
  refine ⟨fun hw => ?_, fun hw => ?_, ?_⟩
  · simp [CacheSemaphore.create, truthy, hk, hw]
  · simp [CacheSemaphore.create, truthy, hk, hw]
  · unfold CacheBoundedSemaphore.create
    rcases hc : CacheSemaphore.create k v s with ⟨s1, sem1⟩
    change (let max := mv.getD v;
      if v > max then (s1, Except.error CacheError.initTooLarge)
      else (s1, Except.ok (CacheBoundedSemaphore.mk sem1 max))).1 = (s1, sem1).1
    by_cases hgt : v > mv.getD v <;> simp [hgt]

/-- Witness for C6 as amended: a live counter holding 7 is preserved by a
second construction. -/
theorem create_preserves_nonzero_counter_witness :
    (single "k" 7) "k" = some 7 ∧
    (CacheSemaphore.create "k" 3 (single "k" 7)).1 = single "k" 7 :=
  ⟨by decide,
    (create_preserves_nonzero_counter "k" 3 7 none (single "k" 7) (by decide)).1
      (by decide)⟩

/-- Counterexample to C7: a successful run of the single-instance wrapper
invokes the lock release twice — once in `__call__` right after the work
and once more in the `on_success` handler — not exactly once. -/
theorem successPath_releases_twice :
    (syncTask.lifecycle answerWork emptyStore).2.1 = CallOutcome.value 42 ∧
    ((syncTask.lifecycle answerWork emptyStore).2.2).count TaskEvent.evRelease = 2 ∧
    ((syncTask.lifecycle answerWork emptyStore).2.2).count TaskEvent.evRelease ≠ 1 := by
  refine ⟨by decide, by decide, by decide⟩

/-- C7 as amended: for a single-instance job that acquires its free lock and
whose work returns normally, the wrapper reports the work's result, the
release call is invoked exactly twice (in `__call__` and again in the
success handler), and the lock ends free. -/
theorem singleTask_success_double_release {α : Type} (t : LoggedSingleTask)
    (work : Store → Store × Option α) (s s2 : Store) (r : α)
    (hfree : s (t.lock).cacheKey = none)
    (hwork : work ((t.lock.acquire s).1) = (s2, some r)) :
    (t.lifecycle work s).2.1 = CallOutcome.value r ∧
    ((t.lifecycle work s).2.2).count TaskEvent.evRelease = 2 ∧
    ((t.lifecycle work s).1) (t.lock).cacheKey = none := by
  have hacq : t.lock.acquire s = (s.set (t.lock).cacheKey 1, true) := by
    simp [CacheLock.acquire, CacheLock.locked, Store.get, hfree, Store.add]
  have hcall : t.call work s =
      (t.lock.release s2, CallOutcome.value r,
        [TaskEvent.evAcquire true, TaskEvent.evWork, TaskEvent.evRelease]) := by
    rw [LoggedSingleTask.call, hacq]
    simp [hacq ▸ hwork]
  rw [LoggedSingleTask.lifecycle, hcall]
  refine ⟨rfl, ?_, ?_⟩
  · show List.count TaskEvent.evRelease
        ([TaskEvent.evAcquire true, TaskEvent.evWork, TaskEvent.evRelease] ++
          [TaskEvent.evRelease]) = 2
    decide
  · show (t.lock.release (t.lock.release s2)) (t.lock).cacheKey = none
    simp [CacheLock.release, Store.delete]

/-- Witness for C7 as amended, at the `Sync` task over the empty store with
work returning 42. -/
theorem singleTask_success_double_release_witness :
    (emptyStore (syncTask.lock).cacheKey = none ∧
     answerWork ((syncTask.lock.acquire emptyStore).1) =
       ((syncTask.lock.acquire emptyStore).1, some 42)) ∧
    ((syncTask.lifecycle answerWork emptyStore).2.1 = CallOutcome.value 42 ∧
     ((syncTask.lifecycle answerWork emptyStore).2.2).count TaskEvent.evRelease = 2 ∧
     ((syncTask.lifecycle answerWork emptyStore).1) (syncTask.lock).cacheKey = none) :=
  ⟨⟨rfl, rfl⟩,
    singleTask_success_double_release syncTask answerWork emptyStore
      ((syncTask.lock.acquire emptyStore).1) 42 rfl rfl⟩

/-- Counterexample to C8: on a bounded semaphore with `max = 5` whose key is
absent from the store, `full()` returns true — the lookup defaults to
`max_value`, not 0 — even though `value()` is 0, which is not ≥ max. -/
theorem full_true_on_absent_key :
    emptyStore b5.cacheKey = none ∧
    b5.full emptyStore = true ∧
    b5.toCacheSemaphore.value emptyStore = 0 ∧
    ¬(b5.maxValue ≤ b5.toCacheSemaphore.value emptyStore) := by
  refine ⟨rfl, by decide, by decide, by decide⟩

/-- C8 as amended: when the counter key is present, `full()` returns true
iff `value() ≥ max`; when the key is absent, `full()` returns true
unconditionally, because the lookup defaults to `max_value` rather than
the 0 that `value()` reports. -/
theorem full_spec (b : CacheBoundedSemaphore) (s : Store) :
    (s b.cacheKey = none → b.full s = true) ∧
    (∀ w, s b.cacheKey = some w →
      (b.full s = true ↔ b.maxValue ≤ b.toCacheSemaphore.value s)) := by
  constructor
  · intro h
    simp [CacheBoundedSemaphore.full, Store.get, h]
  · intro w hw
    simp [CacheBoundedSemaphore.full, CacheSemaphore.value, Store.get, hw]

/-- Witness for C8 as amended, on a present counter holding 3 against
capacity 5. -/
theorem full_spec_witness :
    (single "k" 3) b5.cacheKey = some 3 ∧
    (b5.full (single "k" 3) = true ↔
      b5.maxValue ≤ b5.toCacheSemaphore.value (single "k" 3)) :=
  ⟨by decide, (full_spec b5 (single "k" 3)).2 3 (by decide)⟩

/-- C9: `__del__` on a semaphore (bounded included) is exactly `delete()`:
it removes the shared counter key from the store whatever its current
value, leaving every other key alone. -/
theorem destructor_deletes_counter (sem : CacheSemaphore) (b : CacheBoundedSemaphore)
    (s : Store) (k' : Key) (hne : k' ≠ sem.cacheKey) :
    sem.destruct s = sem.delete s ∧
    (sem.destruct s) sem.cacheKey = none ∧
    (sem.destruct s) k' = s k' ∧
    b.destruct s = b.toCacheSemaphore.delete s ∧
    (b.destruct s) b.cacheKey = none := by
  refine ⟨rfl, ?_, ?_, rfl, ?_⟩ <;>
    simp [CacheSemaphore.destruct, CacheSemaphore.delete,
      CacheBoundedSemaphore.destruct, Store.delete, hne]

/-- Witness for C9: destroying a handle over a counter holding 9 removes
the key while the unrelated key `a` is untouched. -/
theorem destructor_deletes_counter_witness :
    ("a" : Key) ≠ semK.cacheKey ∧
    (semK.destruct (single "k" 9) = semK.delete (single "k" 9) ∧
     (semK.destruct (single "k" 9)) semK.cacheKey = none ∧
     (semK.destruct (single "k" 9)) "a" = (single "k" 9) "a" ∧
     b5.destruct (single "k" 9) = b5.toCacheSemaphore.delete (single "k" 9) ∧
     (b5.destruct (single "k" 9)) b5.cacheKey = none) :=
  ⟨by decide, destructor_deletes_counter semK b5 (single "k" 9) "a" (by decide)⟩

/-- C10: constructing a `CacheBoundedSemaphore` with `value > max_value`
raises `ValueError`, but only after the inherited initializer already ran:
when the key was absent beforehand, the failed construction leaves the key
written with the initial value — exactly the store the inherited
constructor produces. -/
theorem boundedCreate_error_still_writes (k : Key) (v m : Int) (s : Store)
    (habs : s k = none) (hgt : v > m) :
    (CacheBoundedSemaphore.create k v (some m) s).2 =
      Except.error CacheError.initTooLarge ∧
    ((CacheBoundedSemaphore.create k v (some m) s).1) k = some v ∧
    (CacheBoundedSemaphore.create k v (some m) s).1 = (CacheSemaphore.create k v s).1 := by
  have hsem : CacheSemaphore.create k v s = (s.set k v, ⟨k⟩) := by
    simp [CacheSemaphore.create, truthy, habs]
  have hb : CacheBoundedSemaphore.create k v (some m) s =
      (s.set k v, Except.error CacheError.initTooLarge) := by
    unfold CacheBoundedSemaphore.create
    rw [hsem]
    simp [hgt]
  rw [hb, hsem]
  exact ⟨rfl, by simp [Store.set], rfl⟩

/-- Witness for C10: capacity 5 with initial value 7 over the empty store
raises, yet leaves `k ↦ 7` behind. -/
theorem boundedCreate_error_still_writes_witness :
    (emptyStore "k" = none ∧ (7 : Int) > 5) ∧
    ((CacheBoundedSemaphore.create "k" 7 (some 5) emptyStore).2 =
       Except.error CacheError.initTooLarge ∧
     ((CacheBoundedSemaphore.create "k" 7 (some 5) emptyStore).1) "k" = some 7 ∧
     (CacheBoundedSemaphore.create "k" 7 (some 5) emptyStore).1 =
       (CacheSemaphore.create "k" 7 emptyStore).1) :=
  ⟨⟨rfl, by decide⟩,
    boundedCreate_error_still_writes "k" 7 5 emptyStore rfl (by decide)⟩

end CeleryTools
